import Mathlib

/-!
Verification development for the emotional-cue extraction and abstract-image
synthesis pipeline of `src/app.py`.

The Python code is shallowly embedded:
* a Python string is its list of Unicode code points (`List ℕ`);
* Python floats are modelled as exact rationals (`ℚ`);
* the ambient random generator is modelled as an arbitrary tape of natural
  numbers (`ℕ → ℕ`) together with an explicit read position, so every
  statement quantifies over all random sources;
* the PIL canvas is a record of its fixed dimensions, background color and
  the list of draw operations performed against it; the PIL filter and the
  PNG/base64 encoder are out-of-repository library functions and enter as
  abstract function parameters.
-/

/-- A Python string, modelled as its list of Unicode code points. -/
def strCodes (s : String) : List ℕ := s.data.map Char.toNat

/-- One code point of Python `str.lower`, restricted to the ASCII letters;
all marker terms and analysed texts in this development are ASCII. -/
def lowerCode (c : ℕ) : ℕ := if 65 ≤ c ∧ c ≤ 90 then c + 32 else c

/-- Python `text.lower()`. -/
def pyLower (s : List ℕ) : List ℕ := s.map lowerCode

/-- Worker for `pyCount`: scans the haystack left to right; the second
argument is a skip counter that implements the non-overlapping advance by
the needle's length after a hit, exactly as `str.count` advances. -/
def pyCountGo (needle : List ℕ) : List ℕ → ℕ → ℕ
  | [], _ => 0
  | _ :: rest, k + 1 => pyCountGo needle rest k
  | c :: rest, 0 =>
    if (c :: rest).take needle.length = needle then
      1 + pyCountGo needle rest (needle.length - 1)
    else
      pyCountGo needle rest 0

/-- Python `hay.count(needle)`: the number of non-overlapping occurrences of
`needle` in `hay`, scanning left to right (an empty needle matches at every
gap, giving `len(hay) + 1`). -/
def pyCount (needle hay : List ℕ) : ℕ :=
  if needle = [] then hay.length + 1 else pyCountGo needle hay 0

/-- Python substring membership `needle in hay`. -/
def occursIn (needle : List ℕ) : List ℕ → Bool
  | [] => decide (needle = [])
  | c :: rest => decide ((c :: rest).take needle.length = needle) || occursIn needle rest

/-- The positive marker terms of `extract_emotional_cues`. -/
def positive_terms : List (List ℕ) :=
  [strCodes "positive", strCodes "happy", strCodes "joy", strCodes "content",
   strCodes "satisfied", strCodes "growth", strCodes "improve", strCodes "good",
   strCodes "well", strCodes "better"]

/-- The negative marker terms of `extract_emotional_cues`. -/
def negative_terms : List (List ℕ) :=
  [strCodes "negative", strCodes "sad", strCodes "challenge", strCodes "difficult",
   strCodes "blocker", strCodes "fatigue", strCodes "stress", strCodes "anxious",
   strCodes "overwhelm", strCodes "hard"]

/-- The energetic marker terms of `extract_emotional_cues`. -/
def energetic_terms : List (List ℕ) :=
  [strCodes "energy", strCodes "active", strCodes "dynamic", strCodes "vibrant",
   strCodes "excite", strCodes "motivate", strCodes "drive"]

/-- The calm marker terms of `extract_emotional_cues`. -/
def calm_terms : List (List ℕ) :=
  [strCodes "calm", strCodes "peace", strCodes "serene", strCodes "tranquil",
   strCodes "relax", strCodes "balance", strCodes "centered"]

/-- All four marker-term lists together. -/
def all_marker_terms : List (List ℕ) :=
  positive_terms ++ negative_terms ++ energetic_terms ++ calm_terms

/-- The emotional-cue dictionary built by `extract_emotional_cues`, with its
fixed key set positive/negative/energetic/calm/chaotic/focused. -/
structure EmotionalCues where
  positive : ℚ
  negative : ℚ
  energetic : ℚ
  calm : ℚ
  chaotic : ℚ
  focused : ℚ
deriving DecidableEq, Repr

/-- Python `sum(emotional_cues.values())`. -/
def sumCues (c : EmotionalCues) : ℚ :=
  c.positive + c.negative + c.energetic + c.calm + c.chaotic + c.focused

/-- One accumulation loop of `extract_emotional_cues`: for every term of the
list, `if term in text: cues[key] += text.count(term)`. -/
def countTerms (terms : List (List ℕ)) (text : List ℕ) : ℕ :=
  (terms.map (fun t => if occursIn t text then pyCount t text else 0)).sum

/-- The cue dictionary after the four accumulation loops and before
normalization; chaotic and focused are initialised to 0 and the text scan
never touches them. -/
def scanCues (text : List ℕ) : EmotionalCues :=
  ⟨(countTerms positive_terms text : ℚ), (countTerms negative_terms text : ℚ),
   (countTerms energetic_terms text : ℚ), (countTerms calm_terms text : ℚ), 0, 0⟩

/-- The normalization step closing `extract_emotional_cues`: compute the
total of the six values and, when it is positive, divide every value by it;
otherwise the dictionary is returned untouched. -/
def normalizeCues (c : EmotionalCues) : EmotionalCues :=
  if 0 < sumCues c then
    ⟨c.positive / sumCues c, c.negative / sumCues c, c.energetic / sumCues c,
     c.calm / sumCues c, c.chaotic / sumCues c, c.focused / sumCues c⟩
  else c

/-- `extract_emotional_cues(analysis)`: lower-case the text, accumulate the
marker counts, then normalize by the total when it is positive. -/
def extract_emotional_cues (analysis : List ℕ) : EmotionalCues :=
  normalizeCues (scanCues (pyLower analysis))

/-- The running example text of the specification. -/
def exampleText : List ℕ :=
  strCodes "You show positive growth and good energy, with some stress and difficulty."

/-- Python `int()` on a rational: truncation toward zero. -/
def pyInt (q : ℚ) : ℤ := if 0 ≤ q then ⌊q⌋ else -⌊-q⌋

/-- The clamp `min(255, max(0, v))` used on every color channel. -/
def clamp255 (v : ℤ) : ℤ := min 255 (max 0 v)

/-- `calculate_base_color(emotional_cues)`: the warm/cool channel mix,
truncated to integers and clamped to [0, 255]. -/
def calculate_base_color (cues : EmotionalCues) : ℤ × ℤ × ℤ :=
  let r := pyInt (255 * (cues.positive + cues.energetic * (0.5 : ℚ)))
  let g := pyInt (255 * (cues.positive * (0.8 : ℚ) + cues.calm * (0.5 : ℚ)))
  let b := pyInt (255 * (cues.negative + cues.calm))
  (clamp255 r, clamp255 g, clamp255 b)

/-- `random.randint(lo, hi)` (both bounds inclusive), modelled over an
arbitrary tape of naturals read at position `k`: the draw is folded into
the requested interval, so every tape yields an in-range value and every
in-range value is reached by some tape. -/
def randint (tape : ℕ → ℕ) (lo hi : ℤ) (k : ℕ) : ℤ :=
  lo + (tape k : ℤ) % (hi - lo + 1)

/-- The shape variants drawn by `draw_emotional_shapes`. -/
inductive ShapeType where
  | circle
  | rectangle
  | polygon
  | chaos
  | focused
deriving DecidableEq, Repr, Inhabited

/-- One draw operation of `draw_emotional_shapes`: the selected variant,
its position, size and RGBA color, and (for the chaos variant) the five
line segments as (end x, end y, stroke width) triples.  The polygon's
triangle vertices and the focused variant's three concentric rings are
determined by `x`, `y` and `size` alone, as in the source. -/
structure Shape where
  ty : ShapeType
  x : ℤ
  y : ℤ
  size : ℤ
  color : ℤ × ℤ × ℤ × ℤ
  chaosSegments : List (ℤ × ℤ × ℤ)
deriving DecidableEq, Repr, Inhabited

/-- `random.choice(['circle', 'rectangle', 'polygon'])` driven by one tape
value. -/
def trioChoice (n : ℕ) : ShapeType :=
  if n % 3 = 0 then ShapeType.circle
  else if n % 3 = 1 then ShapeType.rectangle
  else ShapeType.polygon

/-- The five chaotic line segments: each consumes an x offset in [-50, 50],
a y offset in [-50, 50] and a stroke width in [1, 5], in source order. -/
def chaosLines (tape : ℕ → ℕ) (x y : ℤ) (k : ℕ) : ℕ → List (ℤ × ℤ × ℤ)
  | 0 => []
  | n + 1 =>
    (x + randint tape (-50) 50 k, y + randint tape (-50) 50 (k + 1),
      randint tape 1 5 (k + 2)) :: chaosLines tape x y (k + 3) n

/-- One iteration of the drawing loop of `draw_emotional_shapes`, returning
the draw operation together with the next tape position.  The shape type is
selected first (chaotic over focused over the random trio), then position,
size, the three perturbed color channels and the alpha are drawn, and the
chaos variant additionally consumes its five line segments. -/
def drawShape (tape : ℕ → ℕ) (width height : ℤ) (cues : EmotionalCues)
    (base : ℤ × ℤ × ℤ) (k0 : ℕ) : Shape × ℕ :=
  let tyk : ShapeType × ℕ :=
    if (0.3 : ℚ) < cues.chaotic then (ShapeType.chaos, k0)
    else if (0.3 : ℚ) < cues.focused then (ShapeType.focused, k0)
    else (trioChoice (tape k0), k0 + 1)
  let ty := tyk.1
  let k := tyk.2
  let x := randint tape 0 width k
  let y := randint tape 0 height (k + 1)
  let size := randint tape 10 100 (k + 2)
  let r := clamp255 (base.1 + randint tape (-50) 50 (k + 3))
  let g := clamp255 (base.2.1 + randint tape (-50) 50 (k + 4))
  let b := clamp255 (base.2.2 + randint tape (-50) 50 (k + 5))
  let a := randint tape 100 200 (k + 6)
  if ty = ShapeType.chaos then
    (⟨ty, x, y, size, (r, g, b, a), chaosLines tape x y (k + 7) 5⟩, k + 22)
  else
    (⟨ty, x, y, size, (r, g, b, a), []⟩, k + 7)

/-- The `for _ in range(num_shapes)` loop, threading the tape position. -/
def drawLoop (tape : ℕ → ℕ) (width height : ℤ) (cues : EmotionalCues)
    (base : ℤ × ℤ × ℤ) : ℕ → ℕ → List Shape
  | 0, _ => []
  | n + 1, k =>
    (drawShape tape width height cues base k).1 ::
      drawLoop tape width height cues base n ((drawShape tape width height cues base k).2)

/-- `draw_emotional_shapes(draw, width, height, emotional_cues, base_color)`:
the list of draw operations performed against the canvas;
`num_shapes = int(10 + 40 * energetic)` (an empty range if negative). -/
def draw_emotional_shapes (tape : ℕ → ℕ) (width height : ℤ)
    (cues : EmotionalCues) (base : ℤ × ℤ × ℤ) : List Shape :=
  drawLoop tape width height cues base
    (Int.toNat (pyInt (10 + 40 * cues.energetic))) 0

/-- A PIL canvas: fixed dimensions, background fill, and the draw
operations applied to it, in order. -/
structure Canvas (α : Type) where
  width : ℤ
  height : ℤ
  background : ℤ × ℤ × ℤ
  shapes : List α
deriving DecidableEq

/-- `apply_emotional_filters(image, emotional_cues)`.  `Image.filter` in PIL
is pure: it returns a new image, and the source binds that new image only to
the local variable `image` and returns `None`.  The canvas object the caller
passed is never mutated, so this definition returns the canvas as the caller
observes it after the call: the argument itself.  The two filter
applications are retained as dead local bindings, exactly as in the source;
the Gaussian blur (radius 1) and the smoothing filter are out-of-repository
PIL operations and enter as the abstract parameters `gaussianBlur` and
`smooth`. -/
def apply_emotional_filters (gaussianBlur smooth : Canvas Shape → Canvas Shape)
    (image : Canvas Shape) (cues : EmotionalCues) : Canvas Shape :=
  let image1 := if (0.4 : ℚ) < cues.chaotic then gaussianBlur image else image
  let image2 := if (0.6 : ℚ) < cues.calm then smooth image1 else image1
  image

/-- `generate_abstract_visualization(emotional_cues)`: render the shapes on
a fresh black 400 by 400 canvas, call the filter stage, and encode the
canvas held by the local variable `image` as a base64 PNG data URI.  The
PNG/base64 encoder is an out-of-repository library function and enters as
the abstract parameter `encode`. -/
def generate_abstract_visualization
    (gaussianBlur smooth : Canvas Shape → Canvas Shape)
    (encode : Canvas Shape → String) (tape : ℕ → ℕ)
    (cues : EmotionalCues) : String :=
  let base_color := calculate_base_color cues
  let image : Canvas Shape :=
    ⟨400, 400, (0, 0, 0),
      draw_emotional_shapes tape 400 400 cues base_color⟩
  let image := apply_emotional_filters gaussianBlur smooth image cues
  String.append "data:image/png;base64," (encode image)

/-- Modelled from the spec: the same pipeline with the PostFilter stage
omitted entirely, used to compare the encoded output with and without the
filter stage (the spec requires the stage's effect to be observable at the
image-encoding step). -/
def generate_abstract_visualization_nofilter
    (encode : Canvas Shape → String) (tape : ℕ → ℕ)
    (cues : EmotionalCues) : String :=
  let base_color := calculate_base_color cues
  let image : Canvas Shape :=
    ⟨400, 400, (0, 0, 0),
      draw_emotional_shapes tape 400 400 cues base_color⟩
  String.append "data:image/png;base64," (encode image)

/-- One default shape of `generate_fallback_image`: a circle or rectangle
(one tape value decides which), with position, size in [20, 80], RGB
channels in [100, 200] and fixed alpha 150. -/
structure FallbackShape where
  circle : Bool
  x : ℤ
  y : ℤ
  size : ℤ
  color : ℤ × ℤ × ℤ × ℤ
deriving DecidableEq, Repr, Inhabited

/-- One iteration of the fallback drawing loop, reading seven tape values
in source order: x, y, size, the three color channels, then the
circle-or-rectangle choice. -/
def fallbackShape (tape : ℕ → ℕ) (k : ℕ) : FallbackShape :=
  { circle := tape (k + 6) % 2 = 0
    x := randint tape 0 400 k
    y := randint tape 0 400 (k + 1)
    size := randint tape 20 80 (k + 2)
    color := (randint tape 100 200 (k + 3), randint tape 100 200 (k + 4),
      randint tape 100 200 (k + 5), 150) }

/-- The `for _ in range(20)` loop of `generate_fallback_image`. -/
def fallbackShapes (tape : ℕ → ℕ) (k : ℕ) : ℕ → List FallbackShape
  | 0 => []
  | n + 1 => fallbackShape tape k :: fallbackShapes tape (k + 7) n

/-- `generate_fallback_image()`: a dark-navy 400 by 400 canvas with 20
default shapes, encoded as a base64 PNG data URI. -/
def generate_fallback_image (encode : Canvas FallbackShape → String)
    (tape : ℕ → ℕ) : String :=
  let image : Canvas FallbackShape := ⟨400, 400, (30, 30, 50), fallbackShapes tape 0 20⟩
  String.append "data:image/png;base64," (encode image)

/-- The JSON payload returned by the `/api/generate-emotion-image` route. -/
structure VizResponse where
  imageData : String
  description : String
deriving DecidableEq

/-- `generate_emotion_image()`: the route handler.  The whole primary
pipeline (cue extraction, visualization, encoding) runs inside one `try`
block, modelled by the `pipeline` argument: `Except.error` is any exception
raised by any step.  On success the image is returned with the templated
description; on any error the handler falls back to
`generate_fallback_image` and the fixed description. -/
def generate_emotion_image (pipeline : Except String String)
    (life_area : String) (encode : Canvas FallbackShape → String)
    (tape : ℕ → ℕ) : VizResponse :=
  match pipeline with
  | Except.ok img =>
    ⟨img, String.append "Abstract visualization of your emotional state regarding " life_area⟩
  | Except.error _ =>
    ⟨generate_fallback_image encode tape, "Abstract representation of emotional state"⟩

/-- A concrete all-zeros random tape, used to instantiate universally
quantified statements at one explicit random source. -/
def tape0 : ℕ → ℕ := fun _ => 0

/-- A concrete base color. -/
def base0 : ℤ × ℤ × ℤ := (0, 0, 0)

/-- A concrete cue vector with full energetic weight. -/
def cuesEnergetic : EmotionalCues := ⟨0, 0, 1, 0, 0, 0⟩

/-- A concrete cue vector in which chaotic and focused both exceed 0.3. -/
def cuesChaosFocused : EmotionalCues := ⟨0, 0, 0, 0, 1, 1⟩

/-- A concrete cue vector with chaotic beyond the 0.4 blur threshold. -/
def cuesChaoticHalf : EmotionalCues := ⟨0, 0, 0, 0, 1/2, 0⟩

/-- A concrete rendered canvas (no shapes yet). -/
def canvasEx : Canvas Shape := ⟨400, 400, (0, 0, 0), []⟩

/-- A concrete stand-in for the radius-1 Gaussian blur: it visibly changes
the canvas (PIL's actual blur changes pixels on any non-uniform canvas). -/
def blurEx : Canvas Shape → Canvas Shape :=
  fun c => { c with background := (1, 1, 30) }

/-- A concrete stand-in for the PNG/base64 encoder. -/
def encode0 : Canvas FallbackShape → String := fun _ => ""

/-- A concrete marker-bearing text. -/
def tGood : List ℕ := strCodes "good"

/-- The first draw operation of the pass over `cuesChaosFocused` (all-zero
tape, zero base color). -/
def sC7 : Shape := (drawShape tape0 400 400 cuesChaosFocused base0 0).1

/-- The first draw operation of the pass over the cues extracted from
`tGood` (all-zero tape, zero base color). -/
def sC9 : Shape := (drawShape tape0 400 400 (extract_emotional_cues tGood) base0 0).1

/-- The base color computed for the specification's running example. -/
def baseEx : ℤ × ℤ × ℤ := calculate_base_color (extract_emotional_cues exampleText)

/-- The first draw operation of the pass over the cues extracted from the
specification's running example (all-zero tape). -/
def sC3 : Shape := (drawShape tape0 400 400 (extract_emotional_cues exampleText) baseEx 0).1

/-- The six scanned cue values are non-negative, so the pre-normalization
total is non-negative. -/
lemma scanCues_sum_nonneg (text : List ℕ) : 0 ≤ sumCues (scanCues text) := by
  simp only [scanCues, sumCues]
  positivity

/-- The chaotic and focused entries of the scanned dictionary are 0. -/
lemma scanCues_chaotic (text : List ℕ) : (scanCues text).chaotic = 0 := rfl

/-- The focused entry of the scanned dictionary is 0. -/
lemma scanCues_focused (text : List ℕ) : (scanCues text).focused = 0 := rfl

/-- A term list all of whose members miss the text accumulates a zero
count. -/
lemma countTerms_zero {terms : List (List ℕ)} {text : List ℕ}
    (h : ∀ t ∈ terms, occursIn t text = false) : countTerms terms text = 0 := by
  unfold countTerms
  apply List.sum_eq_zero
  intro x hx
  simp only [List.mem_map] at hx
  obtain ⟨t, ht, rfl⟩ := hx
  rw [h t ht]
  simp

/-- Lower-casing a code point twice is the same as doing it once. -/
lemma lowerCode_idem (c : ℕ) : lowerCode (lowerCode c) = lowerCode c := by
  unfold lowerCode
  split_ifs <;> omega

/-- `str.lower` is idempotent. -/
lemma pyLower_idem (s : List ℕ) : pyLower (pyLower s) = pyLower s := by
  unfold pyLower
  rw [List.map_map]
  apply List.map_congr_left
  intro a _
  exact lowerCode_idem a

/-- The clamp really lands in [0, 255]. -/
lemma clamp255_bounds (v : ℤ) : 0 ≤ clamp255 v ∧ clamp255 v ≤ 255 := by
  unfold clamp255
  omega

/-- `randint` lands in its (inclusive) interval for every tape. -/
lemma randint_bounds (tape : ℕ → ℕ) (lo hi : ℤ) (k : ℕ) (h : lo ≤ hi) :
    lo ≤ randint tape lo hi k ∧ randint tape lo hi k ≤ hi := by
  unfold randint
  have h1 : (0 : ℤ) < hi - lo + 1 := by omega
  have h2 : 0 ≤ (tape k : ℤ) % (hi - lo + 1) := Int.emod_nonneg _ (by omega)
  have h3 : (tape k : ℤ) % (hi - lo + 1) < hi - lo + 1 := Int.emod_lt_of_pos _ h1
  omega

/-- The drawing loop performs exactly as many iterations as requested. -/
lemma drawLoop_length (tape : ℕ → ℕ) (w h : ℤ) (cues : EmotionalCues)
    (base : ℤ × ℤ × ℤ) : ∀ n k, (drawLoop tape w h cues base n k).length = n := by
  intro n
  induction n with
  | zero => intro k; rfl
  | succ m ih => intro k; simp [drawLoop, ih]

/-- The trio choice only ever yields circle, rectangle or polygon. -/
lemma trioChoice_mem (n : ℕ) :
    trioChoice n = ShapeType.circle ∨ trioChoice n = ShapeType.rectangle ∨
      trioChoice n = ShapeType.polygon := by
  unfold trioChoice
  split_ifs <;> simp

/-- When chaotic exceeds 0.3 the selected type is chaos, whatever the tape,
the focused value and the position. -/
lemma drawShape_ty_chaos (tape : ℕ → ℕ) (w h : ℤ) (cues : EmotionalCues)
    (base : ℤ × ℤ × ℤ) (k : ℕ) (hch : (0.3 : ℚ) < cues.chaotic) :
    (drawShape tape w h cues base k).1.ty = ShapeType.chaos := by
  simp [drawShape, hch]

/-- When neither chaotic nor focused exceeds 0.3 the selected type comes
from the random trio. -/
lemma drawShape_ty_trio (tape : ℕ → ℕ) (w h : ℤ) (cues : EmotionalCues)
    (base : ℤ × ℤ × ℤ) (k : ℕ) (hch : ¬ (0.3 : ℚ) < cues.chaotic)
    (hf : ¬ (0.3 : ℚ) < cues.focused) :
    (drawShape tape w h cues base k).1.ty = trioChoice (tape k) := by
  rcases trioChoice_mem (tape k) with hc | hc | hc <;>
    simp [drawShape, hch, hf, hc]

/-- Every shape of a chaotic pass is of the chaos type. -/
lemma drawLoop_all_chaos (tape : ℕ → ℕ) (w h : ℤ) (cues : EmotionalCues)
    (base : ℤ × ℤ × ℤ) (hch : (0.3 : ℚ) < cues.chaotic) :
    ∀ n k s, s ∈ drawLoop tape w h cues base n k → s.ty = ShapeType.chaos := by
  intro n
  induction n with
  | zero => intro k s hs; simp [drawLoop] at hs
  | succ m ih =>
    intro k s hs
    rw [drawLoop] at hs
    rcases List.mem_cons.mp hs with h1 | h2
    · rw [h1]; exact drawShape_ty_chaos tape w h cues base k hch
    · exact ih _ s h2

/-- Every shape of a pass with small chaotic and focused values is from the
random trio. -/
lemma drawLoop_all_trio (tape : ℕ → ℕ) (w h : ℤ) (cues : EmotionalCues)
    (base : ℤ × ℤ × ℤ) (hch : ¬ (0.3 : ℚ) < cues.chaotic)
    (hf : ¬ (0.3 : ℚ) < cues.focused) :
    ∀ n k s, s ∈ drawLoop tape w h cues base n k →
      s.ty = ShapeType.circle ∨ s.ty = ShapeType.rectangle ∨
        s.ty = ShapeType.polygon := by
  intro n
  induction n with
  | zero => intro k s hs; simp [drawLoop] at hs
  | succ m ih =>
    intro k s hs
    rw [drawLoop] at hs
    rcases List.mem_cons.mp hs with h1 | h2
    · rw [h1, drawShape_ty_trio tape w h cues base k hch hf]
      exact trioChoice_mem (tape k)
    · exact ih _ s h2

/-- The fallback loop draws exactly as many shapes as requested. -/
lemma fallbackShapes_length (tape : ℕ → ℕ) :
    ∀ n k, (fallbackShapes tape k n).length = n := by
  intro n
  induction n with
  | zero => intro k; rfl
  | succ m ih => intro k; simp [fallbackShapes, ih]

/-- Geometry and color bounds of one fallback shape, for every tape and
position. -/
lemma fallbackShape_bounds (tape : ℕ → ℕ) (k : ℕ) :
    0 ≤ (fallbackShape tape k).x ∧ (fallbackShape tape k).x ≤ 400 ∧
    0 ≤ (fallbackShape tape k).y ∧ (fallbackShape tape k).y ≤ 400 ∧
    20 ≤ (fallbackShape tape k).size ∧ (fallbackShape tape k).size ≤ 80 ∧
    100 ≤ (fallbackShape tape k).color.1 ∧ (fallbackShape tape k).color.1 ≤ 200 ∧
    100 ≤ (fallbackShape tape k).color.2.1 ∧ (fallbackShape tape k).color.2.1 ≤ 200 ∧
    100 ≤ (fallbackShape tape k).color.2.2.1 ∧
    (fallbackShape tape k).color.2.2.1 ≤ 200 ∧
    (fallbackShape tape k).color.2.2.2 = 150 := by
  have h1 := randint_bounds tape 0 400 k (by omega)
  have h2 := randint_bounds tape 0 400 (k + 1) (by omega)
  have h3 := randint_bounds tape 20 80 (k + 2) (by omega)
  have h4 := randint_bounds tape 100 200 (k + 3) (by omega)
  have h5 := randint_bounds tape 100 200 (k + 4) (by omega)
  have h6 := randint_bounds tape 100 200 (k + 5) (by omega)
  simp only [fallbackShape]
  exact ⟨h1.1, h1.2, h2.1, h2.2, h3.1, h3.2, h4.1, h4.2, h5.1, h5.2, h6.1, h6.2, trivial⟩

/-- The bounds hold for every member of the fallback shape list. -/
lemma fallbackShapes_mem_bounds (tape : ℕ → ℕ) :
    ∀ n k s, s ∈ fallbackShapes tape k n →
      0 ≤ s.x ∧ s.x ≤ 400 ∧ 0 ≤ s.y ∧ s.y ≤ 400 ∧
      20 ≤ s.size ∧ s.size ≤ 80 ∧
      100 ≤ s.color.1 ∧ s.color.1 ≤ 200 ∧
      100 ≤ s.color.2.1 ∧ s.color.2.1 ≤ 200 ∧
      100 ≤ s.color.2.2.1 ∧ s.color.2.2.1 ≤ 200 ∧
      s.color.2.2.2 = 150 := by
  intro n
  induction n with
  | zero => intro k s hs; simp [fallbackShapes] at hs
  | succ m ih =>
    intro k s hs
    rw [fallbackShapes] at hs
    rcases List.mem_cons.mp hs with h1 | h2
    · rw [h1]; exact fallbackShape_bounds tape k
    · exact ih _ s h2

/-- C2: for every input text, the six values of the cue vector returned by
extract_emotional_cues sum either to exactly 0 (no marker term occurred) or
to exactly 1 after the division of every accumulator by the total (the
floating-point sum is exact in the rational model). -/
theorem claim_C2_cue_sum_zero_or_one (text : List ℕ) :
    sumCues (extract_emotional_cues text) = 0 ∨
      sumCues (extract_emotional_cues text) = 1 := by
  rw [extract_emotional_cues, normalizeCues]
  have h0 : 0 ≤ sumCues (scanCues (pyLower text)) := scanCues_sum_nonneg (pyLower text)
  by_cases h : 0 < sumCues (scanCues (pyLower text))
  · right
    rw [if_pos h]
    have hne : sumCues (scanCues (pyLower text)) ≠ 0 := ne_of_gt h
    simp only [sumCues]
    rw [div_add_div_same, div_add_div_same, div_add_div_same, div_add_div_same,
      div_add_div_same]
    exact div_self (by simpa [sumCues] using hne)
  · left
    rw [if_neg h]
    linarith

/-- C5: for every cue vector, calculate_base_color computes
R = 255(positive + 0.5 energetic), G = 255(0.8 positive + 0.5 calm),
B = 255(negative + calm), each truncated to an integer and clamped, and
every channel of the result lies within [0, 255]. -/
theorem claim_C5_base_color_formula_and_range (cues : EmotionalCues) :
    calculate_base_color cues
      = (clamp255 (pyInt (255 * (cues.positive + (0.5 : ℚ) * cues.energetic))),
         clamp255 (pyInt (255 * ((0.8 : ℚ) * cues.positive + (0.5 : ℚ) * cues.calm))),
         clamp255 (pyInt (255 * (cues.negative + cues.calm))))
    ∧ 0 ≤ (calculate_base_color cues).1 ∧ (calculate_base_color cues).1 ≤ 255
    ∧ 0 ≤ (calculate_base_color cues).2.1 ∧ (calculate_base_color cues).2.1 ≤ 255
    ∧ 0 ≤ (calculate_base_color cues).2.2 ∧ (calculate_base_color cues).2.2 ≤ 255 := by
  simp only [calculate_base_color]
  refine ⟨?_, (clamp255_bounds _).1, (clamp255_bounds _).2,
    (clamp255_bounds _).1, (clamp255_bounds _).2,
    (clamp255_bounds _).1, (clamp255_bounds _).2⟩
  rw [mul_comm cues.energetic (0.5 : ℚ), mul_comm cues.positive (0.8 : ℚ),
    mul_comm cues.calm (0.5 : ℚ)]

/-- C8: a text in which no marker term of any of the four lists occurs
extracts to the all-zero cue vector; the normalization guard is not taken
(the total is not positive), so the division by the total is unreachable. -/
theorem claim_C8_marker_free_all_zero (text : List ℕ)
    (h : ∀ t ∈ all_marker_terms, occursIn t (pyLower text) = false) :
    extract_emotional_cues text = ⟨0, 0, 0, 0, 0, 0⟩ ∧
      ¬ 0 < sumCues (scanCues (pyLower text)) := by
  have hp : countTerms positive_terms (pyLower text) = 0 :=
    countTerms_zero (fun t ht => h t (by simp [all_marker_terms, List.mem_append, ht]))
  have hn : countTerms negative_terms (pyLower text) = 0 :=
    countTerms_zero (fun t ht => h t (by simp [all_marker_terms, List.mem_append, ht]))
  have he : countTerms energetic_terms (pyLower text) = 0 :=
    countTerms_zero (fun t ht => h t (by simp [all_marker_terms, List.mem_append, ht]))
  have hc : countTerms calm_terms (pyLower text) = 0 :=
    countTerms_zero (fun t ht => h t (by simp [all_marker_terms, List.mem_append, ht]))
  have hscan : scanCues (pyLower text) = ⟨0, 0, 0, 0, 0, 0⟩ := by
    rw [scanCues, hp, hn, he, hc]; norm_num
  constructor
  · rw [extract_emotional_cues, hscan, normalizeCues]
    norm_num [sumCues]
  · rw [hscan]
    norm_num [sumCues]

/-- Witness for C8 at the empty text. -/
theorem claim_C8_marker_free_all_zero_witness :
    extract_emotional_cues [] = ⟨0, 0, 0, 0, 0, 0⟩ :=
  (claim_C8_marker_free_all_zero [] (by decide)).1

/-- C10: extract_emotional_cues is invariant under letter case: it agrees
on a text and its lower-cased version, and more generally on any two texts
with the same lower-casing (arbitrary re-casing), because the input is
lower-cased before any marker counting. -/
theorem claim_C10_case_invariance :
    (∀ t, extract_emotional_cues (pyLower t) = extract_emotional_cues t) ∧
      (∀ t u, pyLower u = pyLower t →
        extract_emotional_cues u = extract_emotional_cues t) := by
  have key : ∀ t u, pyLower u = pyLower t →
      extract_emotional_cues u = extract_emotional_cues t := by
    intro t u hlow
    rw [extract_emotional_cues, extract_emotional_cues, hlow]
  exact ⟨fun t => key t (pyLower t) (pyLower_idem t), key⟩

/-- Witness for C10 on a concretely re-cased text. -/
theorem claim_C10_case_invariance_witness :
    extract_emotional_cues (strCodes "GOOD Energy") =
      extract_emotional_cues (strCodes "good energy") :=
  claim_C10_case_invariance.2 (strCodes "good energy") (strCodes "GOOD Energy")
    (by decide)

/-- C6: for every cue vector and every random source, draw_emotional_shapes
performs exactly int(10 + 40 energetic) shape-drawing iterations — which is
floor(10 + 40 energetic) for non-negative energetic — in particular exactly
10 iterations when energetic = 0 and exactly 50 when energetic = 1. -/
theorem claim_C6_shape_count (tape : ℕ → ℕ) (w h : ℤ) (cues : EmotionalCues)
    (base : ℤ × ℤ × ℤ) :
    (draw_emotional_shapes tape w h cues base).length
        = Int.toNat (pyInt (10 + 40 * cues.energetic))
    ∧ (0 ≤ cues.energetic →
        (draw_emotional_shapes tape w h cues base).length
          = Int.toNat ⌊(10 : ℚ) + 40 * cues.energetic⌋)
    ∧ (cues.energetic = 0 → (draw_emotional_shapes tape w h cues base).length = 10)
    ∧ (cues.energetic = 1 → (draw_emotional_shapes tape w h cues base).length = 50) := by
  have hlen : (draw_emotional_shapes tape w h cues base).length
      = Int.toNat (pyInt (10 + 40 * cues.energetic)) := by
    rw [draw_emotional_shapes]
    exact drawLoop_length tape w h cues base _ 0
  refine ⟨hlen, ?_, ?_, ?_⟩
  · intro he
    rw [hlen, pyInt, if_pos (by linarith)]
  · intro he
    rw [hlen, he]
    norm_num [pyInt]
    rfl
  · intro he
    rw [hlen, he]
    norm_num [pyInt]
    rfl

/-- Witness for C6 at full energetic weight: exactly 50 shapes. -/
theorem claim_C6_shape_count_witness :
    (draw_emotional_shapes tape0 400 400 cuesEnergetic base0).length = 50 :=
  (claim_C6_shape_count tape0 400 400 cuesEnergetic base0).2.2.2 rfl

/-- C7: for every cue vector with chaotic above 0.3 and every random
source, every shape drawn in the pass is of the chaos line-bundle type,
whatever the focused value (the chaotic check takes priority over the
focused check and over the random trio). -/
theorem claim_C7_chaos_priority (tape : ℕ → ℕ) (w h : ℤ)
    (cues : EmotionalCues) (base : ℤ × ℤ × ℤ)
    (hch : (0.3 : ℚ) < cues.chaotic) :
    ∀ s ∈ draw_emotional_shapes tape w h cues base, s.ty = ShapeType.chaos := by
  intro s hs
  rw [draw_emotional_shapes] at hs
  exact drawLoop_all_chaos tape w h cues base hch _ _ s hs

/-- Witness for C7: a pass whose cue vector has both chaotic and focused at
1 still draws only chaos shapes (its first shape shown here). -/
theorem claim_C7_chaos_priority_witness :
    (0.3 : ℚ) < cuesChaosFocused.chaotic ∧ (0.3 : ℚ) < cuesChaosFocused.focused ∧
      sC7.ty = ShapeType.chaos := by
  have hch : (0.3 : ℚ) < cuesChaosFocused.chaotic := by norm_num [cuesChaosFocused]
  have hnum : Int.toNat (pyInt (10 + 40 * cuesChaosFocused.energetic)) = 10 := by
    norm_num [cuesChaosFocused, pyInt]
    rfl
  have hmem : sC7 ∈ draw_emotional_shapes tape0 400 400 cuesChaosFocused base0 := by
    rw [draw_emotional_shapes, hnum]
    exact List.mem_cons_self _ _
  exact ⟨hch, by norm_num [cuesChaosFocused],
    claim_C7_chaos_priority tape0 400 400 cuesChaosFocused base0 hch sC7 hmem⟩

/-- C9: for every input text, the chaotic and focused components of the
extracted vector are exactly 0; consequently the shape-type selection on
the text-driven path never takes the chaos or focused branch and the
PostFilter's chaotic-blur condition is never met. -/
theorem claim_C9_chaotic_focused_never_populated (text : List ℕ) :
    (extract_emotional_cues text).chaotic = 0
    ∧ (extract_emotional_cues text).focused = 0
    ∧ ¬ (0.4 : ℚ) < (extract_emotional_cues text).chaotic
    ∧ ∀ tape w h base,
        ∀ s ∈ draw_emotional_shapes tape w h (extract_emotional_cues text) base,
          s.ty = ShapeType.circle ∨ s.ty = ShapeType.rectangle ∨
            s.ty = ShapeType.polygon := by
  have hch : (extract_emotional_cues text).chaotic = 0 := by
    rw [extract_emotional_cues, normalizeCues]
    split_ifs with h
    · simp [scanCues_chaotic]
    · exact scanCues_chaotic (pyLower text)
  have hf : (extract_emotional_cues text).focused = 0 := by
    rw [extract_emotional_cues, normalizeCues]
    split_ifs with h
    · simp [scanCues_focused]
    · exact scanCues_focused (pyLower text)
  refine ⟨hch, hf, by rw [hch]; norm_num, ?_⟩
  intro tape w h base s hs
  rw [draw_emotional_shapes] at hs
  exact drawLoop_all_trio tape w h _ base (by rw [hch]; norm_num)
    (by rw [hf]; norm_num) _ _ s hs

/-- Witness for C9 on the text "good": the extracted chaotic entry is 0 and
the first drawn shape is from the circle/rectangle/polygon trio. -/
theorem claim_C9_chaotic_focused_never_populated_witness :
    (extract_emotional_cues tGood).chaotic = 0 ∧
      (sC9.ty = ShapeType.circle ∨ sC9.ty = ShapeType.rectangle ∨
        sC9.ty = ShapeType.polygon) := by
  have hp : countTerms positive_terms (pyLower tGood) = 1 := by decide
  have hn : countTerms negative_terms (pyLower tGood) = 0 := by decide
  have he : countTerms energetic_terms (pyLower tGood) = 0 := by decide
  have hc : countTerms calm_terms (pyLower tGood) = 0 := by decide
  have hext : extract_emotional_cues tGood = ⟨1, 0, 0, 0, 0, 0⟩ := by
    rw [extract_emotional_cues,
      show scanCues (pyLower tGood) = ⟨1, 0, 0, 0, 0, 0⟩ by
        rw [scanCues, hp, hn, he, hc]; norm_num,
      normalizeCues]
    norm_num [sumCues]
  have hnum :
      Int.toNat (pyInt (10 + 40 * (extract_emotional_cues tGood).energetic)) = 10 := by
    rw [hext]
    norm_num [pyInt]
    rfl
  have hmem :
      sC9 ∈ draw_emotional_shapes tape0 400 400 (extract_emotional_cues tGood) base0 := by
    rw [draw_emotional_shapes, hnum]
    exact List.mem_cons_self _ _
  exact ⟨(claim_C9_chaotic_focused_never_populated tGood).1,
    (claim_C9_chaotic_focused_never_populated tGood).2.2.2 tape0 400 400 base0 sC9 hmem⟩

/-- C1: the claim fails on the code.  PIL's `Image.filter` returns a new
image; `apply_emotional_filters` binds that new image only to its local
variable and returns None, so the caller always encodes the unfiltered
canvas: the pipeline output equals the output of the pipeline without the
filter stage for every blur function, tape and cue vector; concretely, for
a cue vector with chaotic = 1/2 > 0.4 the blur is invoked on a canvas it
visibly changes, yet the caller-visible canvas is unchanged. -/
theorem claim_C1_filter_stage_unobservable :
    (∀ gb sm encode tape cues,
        generate_abstract_visualization gb sm encode tape cues
          = generate_abstract_visualization_nofilter encode tape cues)
    ∧ (0.4 : ℚ) < cuesChaoticHalf.chaotic
    ∧ blurEx canvasEx ≠ canvasEx
    ∧ apply_emotional_filters blurEx id canvasEx cuesChaoticHalf = canvasEx := by
  refine ⟨fun gb sm encode tape cues => rfl, by norm_num [cuesChaoticHalf], ?_, rfl⟩
  decide

/-- C4: when any step of the primary pipeline raises, the route handler
returns the fallback renderer's output with the fixed description; the
fallback canvas is dark-navy (30, 30, 50), 400 by 400, carries exactly 20
shapes, and every shape is at an in-canvas position with size in [20, 80],
RGB channels in [100, 200] and alpha 150, for every random source.  The
fallback is a total function of the tape alone: it cannot fail. -/
theorem claim_C4_fallback_on_error (e life : String)
    (encode : Canvas FallbackShape → String) (tape : ℕ → ℕ) :
    (generate_emotion_image (Except.error e) life encode tape).description
        = "Abstract representation of emotional state"
    ∧ (generate_emotion_image (Except.error e) life encode tape).imageData
        = String.append "data:image/png;base64,"
            (encode ⟨400, 400, (30, 30, 50), fallbackShapes tape 0 20⟩)
    ∧ (fallbackShapes tape 0 20).length = 20
    ∧ ∀ s ∈ fallbackShapes tape 0 20,
        0 ≤ s.x ∧ s.x ≤ 400 ∧ 0 ≤ s.y ∧ s.y ≤ 400 ∧
        20 ≤ s.size ∧ s.size ≤ 80 ∧
        100 ≤ s.color.1 ∧ s.color.1 ≤ 200 ∧
        100 ≤ s.color.2.1 ∧ s.color.2.1 ≤ 200 ∧
        100 ≤ s.color.2.2.1 ∧ s.color.2.2.1 ≤ 200 ∧
        s.color.2.2.2 = 150 := by
  refine ⟨rfl, rfl, fallbackShapes_length tape 20 0, ?_⟩
  intro s hs
  exact fallbackShapes_mem_bounds tape 20 0 s hs

/-- Witness for C4 at a concrete fault, life area, encoder and tape. -/
theorem claim_C4_fallback_on_error_witness :
    (generate_emotion_image (Except.error "fault") "general life" encode0 tape0).description
        = "Abstract representation of emotional state"
    ∧ 20 ≤ (fallbackShape tape0 0).size ∧ (fallbackShape tape0 0).size ≤ 80 := by
  have h := claim_C4_fallback_on_error "fault" "general life" encode0 tape0
  have hmem : fallbackShape tape0 0 ∈ fallbackShapes tape0 0 20 :=
    List.mem_cons_self _ _
  obtain ⟨hd, -, -, hall⟩ := h
  have hs := hall (fallbackShape tape0 0) hmem
  exact ⟨hd, hs.2.2.2.2.1, hs.2.2.2.2.2.1⟩

/-- C3: on the specification's running example the extractor counts 3
positive, 2 negative, 1 energetic and 0 calm hits, normalizes to
(1/2, 1/3, 1/6, 0, 0, 0), the base color is (148, 102, 85), and the
drawing pass performs exactly 16 iterations, every one of which draws a
circle, rectangle or polygon, for every random source. -/
theorem claim_C3_end_to_end_example :
    countTerms positive_terms (pyLower exampleText) = 3
    ∧ countTerms negative_terms (pyLower exampleText) = 2
    ∧ countTerms energetic_terms (pyLower exampleText) = 1
    ∧ countTerms calm_terms (pyLower exampleText) = 0
    ∧ extract_emotional_cues exampleText = ⟨1/2, 1/3, 1/6, 0, 0, 0⟩
    ∧ calculate_base_color (extract_emotional_cues exampleText) = (148, 102, 85)
    ∧ (∀ tape,
        (draw_emotional_shapes tape 400 400 (extract_emotional_cues exampleText)
          baseEx).length = 16)
    ∧ (∀ tape,
        ∀ s ∈ draw_emotional_shapes tape 400 400 (extract_emotional_cues exampleText)
          baseEx,
          s.ty = ShapeType.circle ∨ s.ty = ShapeType.rectangle ∨
            s.ty = ShapeType.polygon) := by
  have hp : countTerms positive_terms (pyLower exampleText) = 3 := by decide
  have hn : countTerms negative_terms (pyLower exampleText) = 2 := by decide
  have he : countTerms energetic_terms (pyLower exampleText) = 1 := by decide
  have hc : countTerms calm_terms (pyLower exampleText) = 0 := by decide
  have hext : extract_emotional_cues exampleText = ⟨1/2, 1/3, 1/6, 0, 0, 0⟩ := by
    rw [extract_emotional_cues,
      show scanCues (pyLower exampleText) = ⟨3, 2, 1, 0, 0, 0⟩ by
        rw [scanCues, hp, hn, he, hc]; norm_num,
      normalizeCues]
    norm_num [sumCues]
  have hbase : calculate_base_color (extract_emotional_cues exampleText)
      = (148, 102, 85) := by
    rw [hext]
    simp only [calculate_base_color]
    norm_num [pyInt, clamp255]
  have hnum16 :
      Int.toNat (pyInt (10 + 40 * (extract_emotional_cues exampleText).energetic))
        = 16 := by
    rw [hext]
    norm_num [pyInt]
    rfl
  refine ⟨hp, hn, he, hc, hext, hbase, ?_, ?_⟩
  · intro tape
    rw [draw_emotional_shapes, hnum16]
    exact drawLoop_length tape 400 400 _ baseEx 16 0
  · intro tape s hs
    rw [draw_emotional_shapes] at hs
    exact drawLoop_all_trio tape 400 400 _ baseEx
      (by rw [hext]; norm_num) (by rw [hext]; norm_num) _ _ s hs

/-- Witness for C3: the example pass at the all-zero tape has 16 shapes and
its first shape is from the trio. -/
theorem claim_C3_end_to_end_example_witness :
    (draw_emotional_shapes tape0 400 400 (extract_emotional_cues exampleText)
        baseEx).length = 16
    ∧ (sC3.ty = ShapeType.circle ∨ sC3.ty = ShapeType.rectangle ∨
        sC3.ty = ShapeType.polygon) := by
  have h := claim_C3_end_to_end_example
  have hnum16 :
      Int.toNat (pyInt (10 + 40 * (extract_emotional_cues exampleText).energetic))
        = 16 := by
    rw [h.2.2.2.2.1]
    norm_num [pyInt]
    rfl
  have hmem : sC3 ∈ draw_emotional_shapes tape0 400 400
      (extract_emotional_cues exampleText) baseEx := by
    rw [draw_emotional_shapes, hnum16]
    exact List.mem_cons_self _ _
  exact ⟨h.2.2.2.2.2.2.1 tape0, h.2.2.2.2.2.2.2 tape0 sC3 hmem⟩
